import Mathlib

/-!
Shallow embedding of the VERITAS analysis pipeline (`src/brain.py`).

The program is a thin orchestration around two external services (a
scraping API and a generative-text API) plus a JSON history file.  The
embedding models:

* JSON values as an inductive `Json` (Python's `json` module; the numbers
  this program produces and consumes are integers);
* the backing file `scan_history.json` as a `FileContent` state: absent,
  present-but-not-parseable, or present and parsing to a `Json` value —
  this is the observable state of the pair (file bytes, `json.load`
  outcome), which is all `load_history` inspects;
* the scraping response as a record carrying the three observations the
  code makes of it (`hasattr(response, 'markdown')`, `isinstance(response,
  dict)`, `str(response)`);
* the generative-text response as an oracle value: the call either raises,
  or returns text whose `json.loads` outcome is recorded (`jsonText j` for
  text parsing to `j`, `nonJson` for text that fails to parse);
* Python operations that can raise (`.get` on a non-dict, `.insert` on a
  non-list) as `Except`-valued functions.

`load_history`, `save_to_history` and `analyze_product` keep the source's
names and translate the source line by line.
-/

namespace Veritas

/-- JSON values as handled by Python's `json` module in this program
(numeric values are integers here: scores). Objects keep key order, as
Python dicts do. -/
inductive Json where
  | null : Json
  | bool (b : Bool) : Json
  | num (n : Int) : Json
  | str (s : String) : Json
  | arr (elems : List Json) : Json
  | obj (kvs : List (String × Json)) : Json

/-- Observable state of the backing file `scan_history.json`: it is
absent, or present with content `json.load` rejects, or present with
content `json.load` parses to `j`. -/
inductive FileContent where
  | absent : FileContent
  | invalid : FileContent
  | valid (j : Json) : FileContent

/-- Python exceptions relevant to the pipeline: `attributeError` for a
method call on a value lacking it (`.get` on a non-dict, `.insert` on a
non-list), `serviceError` for a failure raised by an external call, and
`jsonDecodeError` for `json.loads` on non-JSON text. -/
inductive PyErr where
  | attributeError : PyErr
  | serviceError : PyErr
  | jsonDecodeError : PyErr

/-- Field access `j[k]` / `j.get(k)` on a JSON object: the value at key
`k`, if `j` is an object holding that key. -/
def jGet (j : Json) (k : String) : Option Json :=
  match j with
  | .obj kvs => kvs.lookup k
  | _ => none

/-- Model of Python string slicing `s[:n]` (slicing is by characters). -/
def pyStrTake (s : String) (n : Nat) : String :=
  String.mk (s.data.take n)

/-- Model of Python `list.insert(0, x)`: prepends when the value is a
JSON array, raises `AttributeError` otherwise (a non-list has no
`insert`). -/
def pyInsert0 (j : Json) (x : Json) : Except PyErr Json :=
  match j with
  | .arr xs => .ok (.arr (x :: xs))
  | _ => .error .attributeError

/-- Translation of `load_history` (brain.py lines 67-72): if the file
exists, `json.load` it, returning `[]` when parsing fails; if the file
does not exist, return `[]`.  Total: the `try/except` swallows the parse
failure. -/
def load_history (fc : FileContent) : Json :=
  match fc with
  | .absent => .arr []
  | .invalid => .arr []
  | .valid j => j

/-- The `new_entry` dict built by `save_to_history` (brain.py lines
76-83): Python's `data.get(key, default)` succeeds with the stored value
or the default when `data` is a dict, and raises `AttributeError`
otherwise. The dict literal keeps the source's key order. -/
def mkHistoryEntry (data : Json) (url now : String) : Except PyErr Json :=
  match data with
  | .obj kvs =>
      .ok (.obj
        [("timestamp", .str now),
         ("url", .str url),
         ("product_name", (kvs.lookup "product_name").getD (.str "Unknown Product")),
         ("score", (kvs.lookup "score").getD (.num 0)),
         ("verdict", (kvs.lookup "verdict_badge").getD (.str "Unknown")),
         ("full_data", data)])
  | _ => .error .attributeError

/-- Translation of `save_to_history` (brain.py lines 74-86): load the
history, build `new_entry`, `history.insert(0, new_entry)`, and rewrite
the file with the full list (`json.dump`, whose output parses back to the
same value).  `now` stands for `datetime.now().strftime("%Y-%m-%d %H:%M")`. -/
def save_to_history (data : Json) (url now : String) (fc : FileContent) :
    Except PyErr FileContent :=
  let history := load_history fc
  match mkHistoryEntry data url now with
  | .error e => .error e
  | .ok newEntry =>
    match pyInsert0 history newEntry with
    | .error e => .error e
    | .ok history' => .ok (.valid history')

/-- The scraping response as the code observes it (brain.py lines 94-102):
whether it has a `markdown` attribute (and that attribute's text), whether
it is a dict (and its string-valued entries), and its `str()` rendering. -/
structure FcResponse where
  markdownAttr : Option String
  asDict : Option (List (String × String))
  strRepr : String

/-- Translation of the "Safe data extraction" chain (brain.py lines
96-102): the `markdown` attribute if present; else, for a dict,
`response.get('markdown', str(response))`; else `str(response)`. -/
def scrape_extract (r : FcResponse) : String :=
  match r.markdownAttr with
  | some md => md
  | none =>
    match r.asDict with
    | some entries => (entries.lookup "markdown").getD r.strRepr
    | none => r.strRepr

/-- The generative-text call's outcome when it returns: text whose
`json.loads` parses to `j`, or text `json.loads` rejects. -/
inductive GenText where
  | jsonText (j : Json) : GenText
  | nonJson : GenText

/-- The prompt f-string of brain.py lines 111-131, with `url` and the
(truncated) page text interpolated. -/
def buildPrompt (url raw_data : String) : String :=
  "\n            Analyze this product link: " ++ url ++
  "\n            Page Text: " ++ raw_data ++
  "\n            \n            This is likely from Amazon, Temu, or TikTok Shop.\n            Look for:\n            - Dropshipping scams (Generic items sold at markup)\n            - Fake reviews or \"too good to be true\" claims\n            - TikTok Shop specific red flags (Viral junk, shipping delays)\n            \n            Return a purely JSON response with this exact structure:\n            \x7b\n                \"product_name\": \"Short Name of Product\",\n                \"score\": 45,\n                \"verdict_badge\": \"HARD PASS\" or \"BUY IT\",\n                \"verdict_summary\": \"One sentence summary of why.\",\n                \"marketing_claim\": \"The biggest marketing lie found.\",\n                \"reality_check\": \"The brutal truth about the quality.\",\n                \"reddit_consensus\": \"What Reddit/users really say.\"\n            \x7d\n            "

/-- Everything observable about one `analyze_product` invocation: its
return value, the backing file afterwards, whether the generative model
was invoked (and with which page text and prompt), and whether
`st.error` was shown. -/
structure AnalyzeOutcome where
  result : Option Json
  file : FileContent
  generatorInvoked : Bool
  pageTextToGenerator : Option String
  promptSent : Option String
  errorDisplayed : Bool

/-- Translation of `analyze_product` (brain.py lines 89-141).  The two
external calls are oracle inputs: `scrapeResult` is the outcome of
`app.scrape(url, formats=['markdown'])`, `genResult` the outcome of
`model.generate_content(prompt, ...)` together with the `json.loads`
status of its `.text`.  The single `try/except` catches every raise,
shows `st.error`, and returns `None`; the file is only written by a
`save_to_history` that runs to completion. -/
def analyze_product (scrapeResult : Except PyErr FcResponse)
    (genResult : Except PyErr GenText) (url now : String) (fc : FileContent) :
    AnalyzeOutcome :=
  match scrapeResult with
  | .error _ =>
      { result := none, file := fc, generatorInvoked := false,
        pageTextToGenerator := none, promptSent := none, errorDisplayed := true }
  | .ok response =>
    let raw_data := scrape_extract response
    let raw_data := pyStrTake raw_data 9000
    let prompt := buildPrompt url raw_data
    match genResult with
    | .error _ =>
        { result := none, file := fc, generatorInvoked := true,
          pageTextToGenerator := some raw_data, promptSent := some prompt,
          errorDisplayed := true }
    | .ok .nonJson =>
        { result := none, file := fc, generatorInvoked := true,
          pageTextToGenerator := some raw_data, promptSent := some prompt,
          errorDisplayed := true }
    | .ok (.jsonText data) =>
      match save_to_history data url now fc with
      | .error _ =>
          { result := none, file := fc, generatorInvoked := true,
            pageTextToGenerator := some raw_data, promptSent := some prompt,
            errorDisplayed := true }
      | .ok fc' =>
          { result := some data, file := fc', generatorInvoked := true,
            pageTextToGenerator := some raw_data, promptSent := some prompt,
            errorDisplayed := false }

/-- Iterated `save_to_history`: append the items (data, url, timestamp)
in order, threading the file state; stops at the first raise. -/
def appendAll (items : List (Json × String × String)) (fc : FileContent) :
    Except PyErr FileContent :=
  match items with
  | [] => .ok fc
  | (d, u, t) :: rest =>
    match save_to_history d u t fc with
    | .error e => .error e
    | .ok fc' => appendAll rest fc'

/-- Translation of the score-color selection (brain.py line 160):
`color = "#28a745" if score > 70 else "#dc3545"`. -/
def scoreColor (score : Int) : String :=
  if score > 70 then "#28a745" else "#dc3545"

/-- Reduction of `analyze_product` on the fully-successful path, given the
outcome of `save_to_history`. -/
lemma analyze_of_save_ok (response : FcResponse) (data : Json)
    (url now : String) (fc fc2 : FileContent)
    (hsave : save_to_history data url now fc = .ok fc2) :
    analyze_product (.ok response) (.ok (.jsonText data)) url now fc =
      { result := some data, file := fc2, generatorInvoked := true,
        pageTextToGenerator := some (pyStrTake (scrape_extract response) 9000),
        promptSent := some (buildPrompt url (pyStrTake (scrape_extract response) 9000)),
        errorDisplayed := false } := by
  simp only [analyze_product]
  rw [hsave]

/-- Reduction of `analyze_product` when `save_to_history` raises. -/
lemma analyze_of_save_error (response : FcResponse) (data : Json)
    (url now : String) (fc : FileContent) (e : PyErr)
    (hsave : save_to_history data url now fc = .error e) :
    analyze_product (.ok response) (.ok (.jsonText data)) url now fc =
      { result := none, file := fc, generatorInvoked := true,
        pageTextToGenerator := some (pyStrTake (scrape_extract response) 9000),
        promptSent := some (buildPrompt url (pyStrTake (scrape_extract response) 9000)),
        errorDisplayed := true } := by
  simp only [analyze_product]
  rw [hsave]

/-- Claim C4: `load_history` never raises — it is a total function of the
file state. An absent file and a file with invalid content both yield the
empty list silently, and a valid file yields the parsed value. -/
theorem load_history_never_raises :
    load_history .absent = .arr [] ∧ load_history .invalid = .arr [] ∧
    ∀ j : Json, load_history (.valid j) = j :=
  ⟨rfl, rfl, fun _ => rfl⟩

/-- Claim C5: when the scraping call raises, the generative-text service is
never invoked, the history file is unchanged, and no result is returned. -/
theorem scrape_failure_skips_generator_and_history (e : PyErr)
    (gen : Except PyErr GenText) (url now : String) (fc : FileContent) :
    (analyze_product (.error e) gen url now fc).generatorInvoked = false ∧
    (analyze_product (.error e) gen url now fc).file = fc ∧
    (analyze_product (.error e) gen url now fc).result = none ∧
    (analyze_product (.error e) gen url now fc).errorDisplayed = true :=
  ⟨rfl, rfl, rfl, rfl⟩

/-- Claim C6: when the generative-text call returns text that is not valid
JSON, no history entry is appended (the file is unchanged), an error is
displayed, and `None` is returned. -/
theorem nonjson_generation_reports_failure (response : FcResponse)
    (url now : String) (fc : FileContent) :
    (analyze_product (.ok response) (.ok .nonJson) url now fc).result = none ∧
    (analyze_product (.ok response) (.ok .nonJson) url now fc).file = fc ∧
    (analyze_product (.ok response) (.ok .nonJson) url now fc).errorDisplayed = true ∧
    (analyze_product (.ok response) (.ok .nonJson) url now fc).generatorInvoked = true :=
  ⟨rfl, rfl, rfl, rfl⟩

/-- Claim C9: the rendered score color is green `#28a745` exactly when the
score is strictly greater than 70, and red `#dc3545` otherwise (so a score
of exactly 70 renders red). -/
theorem score_color_threshold (score : Int) :
    (scoreColor score = "#28a745" ↔ 70 < score) ∧
    (¬ 70 < score → scoreColor score = "#dc3545") := by
  by_cases h : 70 < score
  · refine ⟨⟨fun _ => h, fun _ => ?_⟩, fun hc => absurd h hc⟩
    simp [scoreColor, h]
  · refine ⟨⟨fun he => ?_, fun hc => absurd hc h⟩, fun _ => ?_⟩
    · exfalso
      have hred : scoreColor score = "#dc3545" := by simp [scoreColor, h]
      rw [hred] at he
      exact absurd he (by decide)
    · simp [scoreColor, h]

/-- Witness for C9: at score 71 the color is green iff 70 < 71, and at the
boundary score 70 the color is red. -/
theorem score_color_threshold_witness :
    (scoreColor 71 = "#28a745" ↔ 70 < (71 : Int)) ∧ scoreColor 70 = "#dc3545" :=
  ⟨(score_color_threshold 71).1, (score_color_threshold 70).2 (by decide)⟩

/-- Claim C10: `load_history` performs no shape validation — any parsed
JSON value, a non-list included, is returned as-is; and downstream,
`save_to_history` on a file holding a JSON object fails with
`AttributeError` at `history.insert(0, ...)`, which assumes a list. -/
theorem load_history_no_shape_validation :
    (∀ j : Json, load_history (.valid j) = j) ∧
    (∀ (dkvs kvs : List (String × Json)) (url now : String),
      save_to_history (.obj dkvs) url now (.valid (.obj kvs)) =
        .error .attributeError) :=
  ⟨fun _ => rfl, fun _ _ _ _ => rfl⟩

/-- A successful `save_to_history` decomposes: the entry built, the list
the file held, and the file rewritten with the entry at the head. -/
lemma save_ok_inv (data : Json) (url now : String) (fc fc2 : FileContent)
    (h : save_to_history data url now fc = .ok fc2) :
    ∃ (e : Json) (l : List Json), mkHistoryEntry data url now = .ok e ∧
      load_history fc = .arr l ∧ fc2 = .valid (.arr (e :: l)) := by
  simp only [save_to_history] at h
  cases hm : mkHistoryEntry data url now with
  | error e =>
    rw [hm] at h
    exact Except.noConfusion h
  | ok e =>
    rw [hm] at h
    cases hl : load_history fc with
    | arr l =>
      rw [hl] at h
      exact ⟨e, l, rfl, rfl, (Except.ok.inj h).symm⟩
    | null => rw [hl] at h; exact Except.noConfusion h
    | bool b => rw [hl] at h; exact Except.noConfusion h
    | num n => rw [hl] at h; exact Except.noConfusion h
    | str s => rw [hl] at h; exact Except.noConfusion h
    | obj kvs => rw [hl] at h; exact Except.noConfusion h

/-- The entry `save_to_history` builds carries the complete result under
key `full_data`. -/
lemma mkHistoryEntry_full_data (d : Json) (u t : String) (e : Json)
    (h : mkHistoryEntry d u t = .ok e) : jGet e "full_data" = some d := by
  cases d with
  | obj kvs =>
    rw [← Except.ok.inj h]
    rfl
  | null => exact Except.noConfusion h
  | bool b => exact Except.noConfusion h
  | num n => exact Except.noConfusion h
  | str s => exact Except.noConfusion h
  | arr xs => exact Except.noConfusion h

/-- `save_to_history` on dict data and a file holding a JSON list always
succeeds, prepending the built entry. -/
lemma save_to_history_obj (kvs : List (String × Json)) (url now : String)
    (fc : FileContent) (l : List Json) (hl : load_history fc = .arr l) :
    ∃ e : Json, mkHistoryEntry (.obj kvs) url now = .ok e ∧
      save_to_history (.obj kvs) url now fc = .ok (.valid (.arr (e :: l))) := by
  refine ⟨_, rfl, ?_⟩
  simp only [save_to_history, mkHistoryEntry, hl, pyInsert0]

/-- Appending a list of dict results on top of a file holding list `l`
succeeds, and the file afterwards holds the built entries reversed onto
`l`. -/
lemma appendAll_load (items : List (Json × String × String)) :
    ∀ (fc : FileContent) (l : List Json), load_history fc = .arr l →
    (∀ x ∈ items, ∃ kvs, x.1 = Json.obj kvs) →
    ∃ (fc' : FileContent) (es : List Json),
      appendAll items fc = .ok fc' ∧
      List.Forall₂ (fun (x : Json × String × String) (e : Json) =>
        mkHistoryEntry x.1 x.2.1 x.2.2 = .ok e ∧ jGet e "full_data" = some x.1)
        items es ∧
      load_history fc' = .arr (es.reverse ++ l) := by
  induction items with
  | nil =>
    intro fc l hl _
    exact ⟨fc, [], rfl, .nil, by rw [hl]; rfl⟩
  | cons hd rest ih =>
    intro fc l hl hobj
    obtain ⟨kvs, hk⟩ := hobj hd (List.mem_cons_self _ _)
    obtain ⟨d, u, t⟩ := hd
    change d = Json.obj kvs at hk
    subst hk
    obtain ⟨e, he, hsave⟩ := save_to_history_obj kvs u t fc l hl
    have hrest : ∀ x ∈ rest, ∃ k2, x.1 = Json.obj k2 :=
      fun x hx => hobj x (List.mem_cons_of_mem _ hx)
    obtain ⟨fc', es, happ, hfa, hload⟩ := ih (.valid (.arr (e :: l))) (e :: l) rfl hrest
    refine ⟨fc', e :: es,
      ?_, .cons ⟨he, mkHistoryEntry_full_data _ u t e he⟩ hfa, ?_⟩
    · show appendAll ((Json.obj kvs, u, t) :: rest) fc = .ok fc'
      simp only [appendAll]
      rw [hsave]
      exact happ
    · rw [hload]
      congr 1
      simp

/-- Claim C2: each `analyze_product` run is all-or-nothing — either it
fails, returning `None` with the file unchanged and an error displayed, or
it succeeds, returning the parsed result whose `save_to_history` produced
exactly the final file state. -/
theorem analyze_all_or_nothing (scrape : Except PyErr FcResponse)
    (gen : Except PyErr GenText) (url now : String) (fc : FileContent) :
    ((analyze_product scrape gen url now fc).result = none ∧
     (analyze_product scrape gen url now fc).file = fc ∧
     (analyze_product scrape gen url now fc).errorDisplayed = true) ∨
    (∃ d : Json, (analyze_product scrape gen url now fc).result = some d ∧
      save_to_history d url now fc =
        .ok ((analyze_product scrape gen url now fc).file)) := by
  cases scrape with
  | error e => exact Or.inl ⟨rfl, rfl, rfl⟩
  | ok response =>
    cases gen with
    | error e => exact Or.inl ⟨rfl, rfl, rfl⟩
    | ok gt =>
      cases gt with
      | nonJson => exact Or.inl ⟨rfl, rfl, rfl⟩
      | jsonText data =>
        cases hsave : save_to_history data url now fc with
        | error e =>
          rw [analyze_of_save_error response data url now fc e hsave]
          exact Or.inl ⟨rfl, rfl, rfl⟩
        | ok fc2 =>
          rw [analyze_of_save_ok response data url now fc fc2 hsave]
          exact Or.inr ⟨data, rfl, hsave⟩

/-- Claim C7: whenever the generative model is invoked, the page text
interpolated into its prompt is at most 9000 characters long. -/
theorem page_text_bounded (scrape : Except PyErr FcResponse)
    (gen : Except PyErr GenText) (url now : String) (fc : FileContent)
    (s : String)
    (h : (analyze_product scrape gen url now fc).pageTextToGenerator = some s) :
    s.length ≤ 9000 := by
  have hlen : ∀ t : String, (pyStrTake t 9000).length ≤ 9000 := by
    intro t
    show (t.data.take 9000).length ≤ 9000
    rw [List.length_take]
    exact min_le_left _ _
  cases scrape with
  | error e => exact Option.noConfusion h
  | ok response =>
    cases gen with
    | error e =>
      have h2 : some (pyStrTake (scrape_extract response) 9000) = some s := h
      rw [← Option.some.inj h2]
      exact hlen _
    | ok gt =>
      cases gt with
      | nonJson =>
        have h2 : some (pyStrTake (scrape_extract response) 9000) = some s := h
        rw [← Option.some.inj h2]
        exact hlen _
      | jsonText data =>
        cases hsave : save_to_history data url now fc with
        | error e =>
          rw [analyze_of_save_error response data url now fc e hsave] at h
          rw [← Option.some.inj h]
          exact hlen _
        | ok fc2 =>
          rw [analyze_of_save_ok response data url now fc fc2 hsave] at h
          rw [← Option.some.inj h]
          exact hlen _

/-- Witness for C7: a concrete run that reaches the generator has its page
text bounded by 9000 characters. -/
theorem page_text_bounded_witness :
    (analyze_product (.ok ⟨some "Great Widget", none, "resp"⟩)
        (.error .serviceError) "https://example.com" "2026-10-12 00:00"
        .absent).pageTextToGenerator = some (pyStrTake "Great Widget" 9000) ∧
    (pyStrTake "Great Widget" 9000).length ≤ 9000 :=
  ⟨rfl, page_text_bounded (.ok ⟨some "Great Widget", none, "resp"⟩)
    (.error .serviceError) "https://example.com" "2026-10-12 00:00"
    .absent (pyStrTake "Great Widget" 9000) rfl⟩

/-- Claim C8: the fetch step extracts the page text from the scraping
response by shape — the `markdown` attribute when present; else, for a
dict, the value at key `markdown`; and in every remaining case (a dict
without the key, or neither shape) the raw stringified response. -/
theorem scrape_extract_shapes :
    (∀ (r : FcResponse) (md : String), r.markdownAttr = some md →
        scrape_extract r = md) ∧
    (∀ (r : FcResponse) (entries : List (String × String)) (v : String),
        r.markdownAttr = none → r.asDict = some entries →
        entries.lookup "markdown" = some v → scrape_extract r = v) ∧
    (∀ (r : FcResponse) (entries : List (String × String)),
        r.markdownAttr = none → r.asDict = some entries →
        entries.lookup "markdown" = none → scrape_extract r = r.strRepr) ∧
    (∀ r : FcResponse, r.markdownAttr = none → r.asDict = none →
        scrape_extract r = r.strRepr) := by
  refine ⟨?_, ?_, ?_, ?_⟩
  · rintro ⟨ma, ad, sr⟩ md h
    change ma = some md at h
    subst h
    rfl
  · rintro ⟨ma, ad, sr⟩ entries v h1 h2 h3
    change ma = none at h1
    change ad = some entries at h2
    subst h1
    subst h2
    show (entries.lookup "markdown").getD sr = v
    rw [h3]
    rfl
  · rintro ⟨ma, ad, sr⟩ entries h1 h2 h3
    change ma = none at h1
    change ad = some entries at h2
    subst h1
    subst h2
    show (entries.lookup "markdown").getD sr = sr
    rw [h3]
    rfl
  · rintro ⟨ma, ad, sr⟩ h1 h2
    change ma = none at h1
    change ad = none at h2
    subst h1
    subst h2
    rfl

/-- Witness for C8: the four extraction shapes at concrete responses. -/
theorem scrape_extract_shapes_witness :
    scrape_extract ⟨some "attr text", some [("markdown", "dict text")], "raw"⟩ =
      "attr text" ∧
    scrape_extract ⟨none, some [("markdown", "dict text")], "raw"⟩ =
      "dict text" ∧
    scrape_extract ⟨none, some [("other", "x")], "raw"⟩ = "raw" ∧
    scrape_extract ⟨none, none, "raw"⟩ = "raw" :=
  ⟨scrape_extract_shapes.1 _ "attr text" rfl,
   scrape_extract_shapes.2.1 _ [("markdown", "dict text")] "dict text" rfl rfl rfl,
   scrape_extract_shapes.2.2.1 _ [("other", "x")] rfl rfl (by simp),
   scrape_extract_shapes.2.2.2 _ rfl rfl⟩

/-- Claim C3: a successful run appends exactly one history entry, at index
0 of `load_history`'s result; and appending N dict results to an initially
empty store yields N entries in reverse-insertion order, each carrying its
full result under `full_data`. -/
theorem history_append_roundtrip :
    (∀ (scrape : Except PyErr FcResponse) (gen : Except PyErr GenText)
        (url now : String) (fc : FileContent) (d : Json),
      (analyze_product scrape gen url now fc).result = some d →
      ∃ (e : Json) (l : List Json),
        mkHistoryEntry d url now = .ok e ∧
        load_history fc = .arr l ∧
        load_history (analyze_product scrape gen url now fc).file = .arr (e :: l) ∧
        jGet e "full_data" = some d) ∧
    (∀ items : List (Json × String × String),
      (∀ x ∈ items, ∃ kvs, x.1 = Json.obj kvs) →
      ∃ (fc' : FileContent) (es : List Json),
        appendAll items .absent = .ok fc' ∧
        es.length = items.length ∧
        List.Forall₂ (fun (x : Json × String × String) (e : Json) =>
          mkHistoryEntry x.1 x.2.1 x.2.2 = .ok e ∧ jGet e "full_data" = some x.1)
          items es ∧
        load_history fc' = .arr es.reverse) := by
  constructor
  · intro scrape gen url now fc d h
    cases scrape with
    | error e => exact Option.noConfusion h
    | ok response =>
      cases gen with
      | error e => exact Option.noConfusion h
      | ok gt =>
        cases gt with
        | nonJson => exact Option.noConfusion h
        | jsonText data =>
          cases hsave : save_to_history data url now fc with
          | error e =>
            rw [analyze_of_save_error response data url now fc e hsave] at h
            exact Option.noConfusion h
          | ok fc2 =>
            rw [analyze_of_save_ok response data url now fc fc2 hsave] at h
            have hd : data = d := Option.some.inj h
            subst hd
            obtain ⟨e, l, hm, hl, hfc2⟩ := save_ok_inv data url now fc fc2 hsave
            subst hfc2
            refine ⟨e, l, hm, hl, ?_, mkHistoryEntry_full_data data url now e hm⟩
            rw [analyze_of_save_ok response data url now fc _ hsave]
            rfl
  · intro items hobj
    obtain ⟨fc', es, happ, hfa, hload⟩ := appendAll_load items .absent [] rfl hobj
    refine ⟨fc', es, happ, (List.Forall₂.length_eq hfa).symm, hfa, ?_⟩
    rw [hload]
    simp

/-- Witness for C3: a concrete successful run lands its entry at index 0,
and appending two concrete dict results to an empty store round-trips. -/
theorem history_append_roundtrip_witness :
    (∃ (e : Json) (l : List Json),
        mkHistoryEntry (Json.obj [("score", Json.num 20)])
          "https://example.com" "2026-10-12 00:00" = .ok e ∧
        load_history .absent = .arr l ∧
        load_history (analyze_product (.ok ⟨some "page", none, "resp"⟩)
          (.ok (.jsonText (Json.obj [("score", Json.num 20)])))
          "https://example.com" "2026-10-12 00:00" .absent).file = .arr (e :: l) ∧
        jGet e "full_data" = some (Json.obj [("score", Json.num 20)])) ∧
    (∃ (fc' : FileContent) (es : List Json),
        appendAll [(Json.obj [], "u1", "t1"),
          (Json.obj [("a", Json.str "b")], "u2", "t2")] .absent = .ok fc' ∧
        es.length = [(Json.obj [], "u1", "t1"),
          (Json.obj [("a", Json.str "b")], "u2", "t2")].length ∧
        List.Forall₂ (fun (x : Json × String × String) (e : Json) =>
          mkHistoryEntry x.1 x.2.1 x.2.2 = .ok e ∧ jGet e "full_data" = some x.1)
          [(Json.obj [], "u1", "t1"),
           (Json.obj [("a", Json.str "b")], "u2", "t2")] es ∧
        load_history fc' = .arr es.reverse) :=
  ⟨history_append_roundtrip.1 (.ok ⟨some "page", none, "resp"⟩)
      (.ok (.jsonText (Json.obj [("score", Json.num 20)])))
      "https://example.com" "2026-10-12 00:00" .absent
      (Json.obj [("score", Json.num 20)]) rfl,
   history_append_roundtrip.2
      [(Json.obj [], "u1", "t1"), (Json.obj [("a", Json.str "b")], "u2", "t2")]
      (by
        intro x hx
        rcases List.mem_cons.mp hx with h | hx
        · exact ⟨[], by rw [h]⟩
        rcases List.mem_cons.mp hx with h | hx
        · exact ⟨[("a", Json.str "b")], by rw [h]⟩
        · cases hx)⟩

/-- Counterexample to C1: a result missing `product_name`, `score` and
`verdict_badge` (the empty JSON object) does NOT make the
history-serialization step raise — the run succeeds, no error is shown,
the result is returned, and an entry built from defaults is persisted. -/
theorem missing_fields_counterexample :
    (analyze_product (.ok ⟨some "page", none, "resp"⟩)
        (.ok (.jsonText (Json.obj []))) "https://x" "2026-10-12 00:00"
        .absent).result = some (Json.obj []) ∧
    (analyze_product (.ok ⟨some "page", none, "resp"⟩)
        (.ok (.jsonText (Json.obj []))) "https://x" "2026-10-12 00:00"
        .absent).errorDisplayed = false ∧
    (analyze_product (.ok ⟨some "page", none, "resp"⟩)
        (.ok (.jsonText (Json.obj []))) "https://x" "2026-10-12 00:00"
        .absent).file =
      .valid (.arr [Json.obj
        [("timestamp", Json.str "2026-10-12 00:00"),
         ("url", Json.str "https://x"),
         ("product_name", Json.str "Unknown Product"),
         ("score", Json.num 0),
         ("verdict", Json.str "Unknown"),
         ("full_data", Json.obj [])]]) :=
  ⟨rfl, rfl, rfl⟩

/-- Claim C1 as amended: when the result object lacks at least one of
`product_name`, `score` or `verdict_badge`, history serialization does not
raise — `save_to_history` substitutes the default ("Unknown Product", 0 or
"Unknown") for exactly each missing field while keeping the fields that are
present, the entry (with the complete result under `full_data`) is
persisted at the head, and `analyze_product` returns the result with no
error displayed. -/
theorem missing_fields_use_defaults (kvs : List (String × Json))
    (response : FcResponse) (url now : String) (fc : FileContent)
    (l : List Json)
    (hmiss : kvs.lookup "product_name" = none ∨ kvs.lookup "score" = none ∨
      kvs.lookup "verdict_badge" = none)
    (hl : load_history fc = .arr l) :
    (analyze_product (.ok response) (.ok (.jsonText (Json.obj kvs)))
        url now fc).result = some (Json.obj kvs) ∧
    (analyze_product (.ok response) (.ok (.jsonText (Json.obj kvs)))
        url now fc).errorDisplayed = false ∧
    load_history (analyze_product (.ok response)
        (.ok (.jsonText (Json.obj kvs))) url now fc).file =
      .arr (Json.obj
        [("timestamp", Json.str now),
         ("url", Json.str url),
         ("product_name",
           (kvs.lookup "product_name").getD (Json.str "Unknown Product")),
         ("score", (kvs.lookup "score").getD (Json.num 0)),
         ("verdict", (kvs.lookup "verdict_badge").getD (Json.str "Unknown")),
         ("full_data", Json.obj kvs)] :: l) := by
  have hsave : save_to_history (Json.obj kvs) url now fc =
      .ok (.valid (.arr (Json.obj
        [("timestamp", Json.str now),
         ("url", Json.str url),
         ("product_name",
           (kvs.lookup "product_name").getD (Json.str "Unknown Product")),
         ("score", (kvs.lookup "score").getD (Json.num 0)),
         ("verdict", (kvs.lookup "verdict_badge").getD (Json.str "Unknown")),
         ("full_data", Json.obj kvs)] :: l))) := by
    simp only [save_to_history, mkHistoryEntry, hl, pyInsert0]
  rw [analyze_of_save_ok response (Json.obj kvs) url now fc _ hsave]
  exact ⟨rfl, rfl, rfl⟩

/-- Witness for the amended C1: a result missing only `score` (with
`product_name` and `verdict_badge` present) is persisted with the stored
values for the present fields and the default 0 for the missing one, and
returned without error. -/
theorem missing_fields_use_defaults_witness :
    ([("product_name", Json.str "Widget"),
      ("verdict_badge", Json.str "HARD PASS")].lookup "product_name" = none ∨
     [("product_name", Json.str "Widget"),
      ("verdict_badge", Json.str "HARD PASS")].lookup "score" = none ∨
     [("product_name", Json.str "Widget"),
      ("verdict_badge", Json.str "HARD PASS")].lookup "verdict_badge" = none) ∧
    load_history .absent = .arr [] ∧
    ((analyze_product (.ok ⟨some "page", none, "resp"⟩)
        (.ok (.jsonText (Json.obj [("product_name", Json.str "Widget"),
          ("verdict_badge", Json.str "HARD PASS")])))
        "https://x" "2026-10-12 00:00" .absent).result =
      some (Json.obj [("product_name", Json.str "Widget"),
        ("verdict_badge", Json.str "HARD PASS")]) ∧
    (analyze_product (.ok ⟨some "page", none, "resp"⟩)
        (.ok (.jsonText (Json.obj [("product_name", Json.str "Widget"),
          ("verdict_badge", Json.str "HARD PASS")])))
        "https://x" "2026-10-12 00:00" .absent).errorDisplayed = false ∧
    load_history (analyze_product (.ok ⟨some "page", none, "resp"⟩)
        (.ok (.jsonText (Json.obj [("product_name", Json.str "Widget"),
          ("verdict_badge", Json.str "HARD PASS")])))
        "https://x" "2026-10-12 00:00" .absent).file =
      .arr [Json.obj
        [("timestamp", Json.str "2026-10-12 00:00"),
         ("url", Json.str "https://x"),
         ("product_name", Json.str "Widget"),
         ("score", Json.num 0),
         ("verdict", Json.str "HARD PASS"),
         ("full_data", Json.obj [("product_name", Json.str "Widget"),
           ("verdict_badge", Json.str "HARD PASS")])]]) :=
  ⟨Or.inr (Or.inl rfl), rfl,
   missing_fields_use_defaults
     [("product_name", Json.str "Widget"),
      ("verdict_badge", Json.str "HARD PASS")]
     ⟨some "page", none, "resp"⟩ "https://x" "2026-10-12 00:00" .absent []
     (Or.inr (Or.inl rfl)) rfl⟩

end Veritas
